import Mathlib

/-!
Verification development for the flatui font manager
(`include/flatui/font_manager.h`).

The definitions below are a shallow embedding of the data model of the
header: `FontBufferParameters` (the cache-key fingerprint), `FontMetrics`
(sign-constrained vertical metrics), `FontBuffer` (parallel index, vertex,
code-point and caret arrays) and a model of the glyph-cache orchestration
used by `FontManager::GetBuffer`.

Machine integers are modelled as `Nat`/`Int` with explicit reductions
modulo `2^32` (or `2^64`) where the C++ code performs 32-bit (or 64-bit)
arithmetic.  C++ `float` values are modelled by their IEEE-754 binary32
bit pattern (a `Nat` below `2^32`), decoded to an exact rational (or an
infinity / NaN marker) wherever the code compares floats.
-/

/-- Value denoted by an IEEE-754 binary32 bit pattern: a NaN, an infinity,
or a finite value.  Every finite binary32 value is an integer multiple of
`2^-149`, so `fin n` denotes the exact value `n / 2^149`. -/
inductive FVal where
  | nan : FVal
  | posInf : FVal
  | negInf : FVal
  | fin : ℤ → FVal
deriving DecidableEq

/-- Decode an IEEE-754 binary32 bit pattern (sign bit 31, exponent bits
30..23, fraction bits 22..0).  Subnormals denote `±f * 2^-149`, normal
values `±(2^23 + f) * 2^(e - 150)`; both are returned as the exact
numerator over the common denominator `2^149`. -/
def fdecode (bits : ℕ) : FVal :=
  let b : ℕ := bits % 4294967296
  let sneg : Bool := b / 2 ^ 31 == 1
  let e : ℕ := b / 2 ^ 23 % 256
  let f : ℕ := b % 2 ^ 23
  if e = 255 then
    if f = 0 then (if sneg then FVal.negInf else FVal.posInf) else FVal.nan
  else
    let s : ℤ := if sneg then -1 else 1
    if e = 0 then FVal.fin (s * (f : ℤ))
    else FVal.fin (s * ((2 ^ 23 + f : ℕ) : ℤ) * 2 ^ (e - 1))

/-- C++ `operator==` on two `float` bit patterns: NaN compares unequal to
everything (itself included); `+0.0` and `-0.0` decode to the same
numerator `0` and hence compare equal; all other bit patterns compare
equal exactly when they denote the same value. -/
def feq (a b : ℕ) : Bool :=
  match fdecode a, fdecode b with
  | FVal.fin x, FVal.fin y => x == y
  | FVal.posInf, FVal.posInf => true
  | FVal.negInf, FVal.negInf => true
  | _, _ => false

/-- Floor of the base-2 logarithm, by structural recursion on a fuel
argument (so that it evaluates by kernel reduction). -/
def log2Fuel : ℕ → ℕ → ℕ
  | 0, _ => 0
  | fuel + 1, n => if 2 ≤ n then log2Fuel fuel (n / 2) + 1 else 0

/-- Floor of the base-2 logarithm of `n` (0 for `n = 0`). -/
def log2e (n : ℕ) : ℕ :=
  log2Fuel n n

/-- Round `n / 2^k` to the nearest integer, ties to even (the IEEE-754
default rounding used by the C++ `int` → `float` conversion). -/
def roundNearestEven (n : ℕ) (k : ℕ) : ℕ :=
  let q := n / 2 ^ k
  let r := n % 2 ^ k
  if 2 * r < 2 ^ k then q
  else if 2 * r > 2 ^ k then q + 1
  else if q % 2 = 0 then q else q + 1

/-- Exact value of the C++ conversion of an integer to `float`, scaled by
`2^149` (the denominator used by `FVal.fin`): integers of magnitude below
`2^24` convert exactly, larger ones are rounded to 24 significant bits
(ties to even).  `int32_t` inputs never overflow to infinity. -/
def floatOfIntScaled (y : ℤ) : ℤ :=
  if y.natAbs < 2 ^ 24 then y * 2 ^ 149
  else
    let a := y.natAbs
    let k := log2e a - 23
    let m := roundNearestEven a k
    (if y < 0 then -1 else 1) * (m : ℤ) * 2 ^ k * 2 ^ 149

/-- C++ comparison `y > f` between an `int32_t` `y` and a `float` with bit
pattern `bits`: `y` is converted to `float` and the floats are compared
(false against NaN, per IEEE-754). -/
def fgtIntFloat (y : ℤ) (bits : ℕ) : Bool :=
  match fdecode bits with
  | FVal.nan => false
  | FVal.posInf => false
  | FVal.negInf => true
  | FVal.fin n => floatOfIntScaled y > n

/-- Reinterpret a `uint32_t` value as the `int32_t` with the same bit
pattern (two's complement). -/
def toInt32 (n : ℕ) : ℤ :=
  if n % 4294967296 < 2 ^ 31 then ((n % 4294967296 : ℕ) : ℤ)
  else ((n % 4294967296 : ℕ) : ℤ) - 4294967296

/-- Wrap a mathematical integer into `int32_t` two's-complement range, the
effective result of C++ signed 32-bit arithmetic such as
`size_.x() * kFreeTypeUnit`. -/
def wrap32 (n : ℤ) : ℤ :=
  (n + 2 ^ 31) % 2 ^ 32 - 2 ^ 31

/-- Constant `kFreeTypeUnit` from `font_manager.h`: FreeType position
values are in 1/64 pixel units. -/
def kFreeTypeUnit : ℤ := 64

/-- Fields of `flatui::FontBufferParameters`.  `font_id_` and `text_id_`
are `HashedId` (32-bit) values, `font_size_` is the binary32 bit pattern
of the C++ `float`, `size_` is a `mathfu::vec2i`, and `flags_value_` is
the `uint32_t` member of the anonymous union overlaying the
`FontBufferFlags` bit fields (bit 0 `caret_info`, bits 1..2 `glyph_flags`,
bits 3..5 `text_alignement`). -/
structure FontBufferParameters where
  font_id : ℕ
  text_id : ℕ
  font_size : ℕ
  size_x : ℤ
  size_y : ℤ
  flags_value : ℕ
deriving DecidableEq

/-- Constructor `FontBufferParameters(font_id, text_id, font_size, size,
text_alignment, glyph_flags, caret_info)`.  The constructor assigns the
three bit fields of `flags_` but never initializes the remaining 26
padding bits of the union's `uint32_t` view; `garbage` models the
indeterminate content those padding bits keep (the C++ object's
uninitialized storage). -/
def mkFontBufferParameters (font_id text_id : ℕ) (font_size : ℕ)
    (sx sy : ℤ) (alignment glyph_flags : ℕ) (caret_info : Bool)
    (garbage : ℕ) : FontBufferParameters :=
  { font_id := font_id % 4294967296
    text_id := text_id % 4294967296
    font_size := font_size % 4294967296
    size_x := sx
    size_y := sy
    flags_value :=
      garbage % 4294967296 / 64 * 64 + alignment % 8 * 8 +
        glyph_flags % 4 * 2 + (if caret_info then 1 else 0) }

/-- Method `FontBufferParameters::operator==`: memberwise comparison of
`font_id_`, `text_id_`, `font_size_` (C++ `float` `==`), `size_.x()`,
`size_.y()` and `flags_value_`. -/
def FontBufferParameters.opEq (p other : FontBufferParameters) : Bool :=
  p.font_id == other.font_id && p.text_id == other.text_id &&
    feq p.font_size other.font_size && p.size_x == other.size_x &&
    p.size_y == other.size_y && p.flags_value == other.flags_value

/-- Method `FontBufferParameters::operator()(key)`, the hash used by the
`unordered_map` caches.  `hashFloat` and `hashInt` model the
implementation-defined `std::hash<float>` and `std::hash<int32_t>`;
`size_t` arithmetic is 64-bit.  Note the method mixes `font_id_` and
`text_id_` of the hasher object `p` itself with the remaining fields of
`key`, exactly as the source does. -/
def FontBufferParameters.opHash (hashFloat : ℕ → ℕ) (hashInt : ℤ → ℕ)
    (p key : FontBufferParameters) : ℕ :=
  let m := 18446744073709551616
  let v0 := Nat.xor p.font_id (p.text_id * 2 % 4294967296) / 2
  let v1 := Nat.xor v0 (hashFloat key.font_size % m * 2 % m / 2)
  let v2 := Nat.xor v1 (hashInt (toInt32 key.flags_value) % m * 2 % m / 2)
  let v3 := Nat.xor v2 (hashInt key.size_x % m * 2 % m / 2)
  Nat.xor v3 (hashInt key.size_y % m * 2 % m / 2)

/-- Getter `FontBufferParameters::get_text_alignment()`: reads the
3-bit `text_alignement` bit field (bits 3..5 of `flags_value_`). -/
def FontBufferParameters.get_text_alignment (p : FontBufferParameters) : ℕ :=
  p.flags_value / 8 % 8

/-- Getter `FontBufferParameters::get_glyph_flags()`: reads the 2-bit
`glyph_flags` bit field (bits 1..2 of `flags_value_`). -/
def FontBufferParameters.get_glyph_flags (p : FontBufferParameters) : ℕ :=
  p.flags_value / 2 % 4

/-- Getter `FontBufferParameters::get_caret_info_flag()`: reads the 1-bit
`caret_info` bit field (bit 0 of `flags_value_`). -/
def FontBufferParameters.get_caret_info_flag (p : FontBufferParameters) : Bool :=
  p.flags_value % 2 == 1

/-- Enumerator values of `flatui::TextAlignment`. -/
def kTextAlignmentLeft : ℕ := 0

/-- Enumerator `kTextAlignmentRight`. -/
def kTextAlignmentRight : ℕ := 1

/-- Enumerator `kTextAlignmentCenter`. -/
def kTextAlignmentCenter : ℕ := 2

/-- Enumerator `kTextAlignmentJustify` (also `kTextAlignmentLeftJustify`). -/
def kTextAlignmentJustify : ℕ := 4

/-- Enumerator `kTextAlignmentRightJustify = kTextAlignmentJustify |
kTextAlignmentRight`. -/
def kTextAlignmentRightJustify : ℕ := 5

/-- Enumerator `kTextAlignmentCenterJustify = kTextAlignmentJustify |
kTextAlignmentCenter`. -/
def kTextAlignmentCenterJustify : ℕ := 6

/-- The set of values of the `TextAlignment` enumeration. -/
def validAlignment (a : ℕ) : Prop :=
  a = kTextAlignmentLeft ∨ a = kTextAlignmentRight ∨
    a = kTextAlignmentCenter ∨ a = kTextAlignmentJustify ∨
    a = kTextAlignmentRightJustify ∨ a = kTextAlignmentCenterJustify

instance (a : ℕ) : Decidable (validAlignment a) := by
  unfold validAlignment
  infer_instance

/-- Method `FontBufferParameters::get_line_length()`: `0` for left or
center alignment, otherwise `size_.x() * kFreeTypeUnit` in `int32_t`
arithmetic. -/
def FontBufferParameters.get_line_length (p : FontBufferParameters) : ℤ :=
  if p.get_text_alignment = kTextAlignmentLeft ∨
      p.get_text_alignment = kTextAlignmentCenter then 0
  else wrap32 (p.size_x * kFreeTypeUnit)

/-- Method `FontBufferParameters::get_multi_line_setting()`: `false` when
`size_.x()` is `0`; `true` when the alignment is not `kTextAlignmentLeft`;
otherwise `size_.y() == 0 || size_.y() > font_size_` (an `int32_t` versus
`float` comparison). -/
def FontBufferParameters.get_multi_line_setting (p : FontBufferParameters) : Bool :=
  if p.size_x = 0 then false
  else if p.get_text_alignment ≠ kTextAlignmentLeft then true
  else p.size_y == 0 || fgtIntFloat p.size_y p.font_size

/-- Fields of `flatui::FontMetrics`: baseline plus the four
sign-constrained vertical metrics (`internal_leading_ >= 0`,
`ascender_ >= 0`, `descender_ <= 0`, `external_leading_ <= 0`). -/
structure FontMetrics where
  base_line : ℤ
  internal_leading : ℤ
  ascender : ℤ
  descender : ℤ
  external_leading : ℤ
deriving DecidableEq

/-- The sign constraints asserted throughout `FontMetrics`. -/
def FontMetrics.signOk (m : FontMetrics) : Prop :=
  0 ≤ m.internal_leading ∧ 0 ≤ m.ascender ∧ m.descender ≤ 0 ∧
    m.external_leading ≤ 0

instance (m : FontMetrics) : Decidable m.signOk := by
  unfold FontMetrics.signOk
  infer_instance

/-- The default `FontMetrics` constructor: all fields zero. -/
def FontMetrics.mkDefault : FontMetrics :=
  ⟨0, 0, 0, 0, 0⟩

/-- The initializing `FontMetrics` constructor; its four `assert`
statements are modelled by returning `none` (fatal assertion) when a sign
constraint is violated. -/
def FontMetrics.mkChecked (base_line internal_leading ascender descender
    external_leading : ℤ) : Option FontMetrics :=
  if 0 ≤ internal_leading ∧ 0 ≤ ascender ∧ descender ≤ 0 ∧
      external_leading ≤ 0 then
    some ⟨base_line, internal_leading, ascender, descender, external_leading⟩
  else none

/-- Setter `FontMetrics::set_base_line` (no assertion). -/
def FontMetrics.set_base_line (m : FontMetrics) (v : ℤ) : FontMetrics :=
  { m with base_line := v }

/-- Setter `FontMetrics::set_internal_leading` with its
`assert(internal_leading >= 0)`. -/
def FontMetrics.set_internal_leading (m : FontMetrics) (v : ℤ) :
    Option FontMetrics :=
  if 0 ≤ v then some { m with internal_leading := v } else none

/-- Setter `FontMetrics::set_ascender` with its `assert(ascender >= 0)`. -/
def FontMetrics.set_ascender (m : FontMetrics) (v : ℤ) : Option FontMetrics :=
  if 0 ≤ v then some { m with ascender := v } else none

/-- Setter `FontMetrics::set_descender` with its `assert(descender <= 0)`. -/
def FontMetrics.set_descender (m : FontMetrics) (v : ℤ) : Option FontMetrics :=
  if v ≤ 0 then some { m with descender := v } else none

/-- Setter `FontMetrics::set_external_leading` with its
`assert(external_leading <= 0)`. -/
def FontMetrics.set_external_leading (m : FontMetrics) (v : ℤ) :
    Option FontMetrics :=
  if v ≤ 0 then some { m with external_leading := v } else none

/-- Method `FontMetrics::total()`:
`internal_leading_ + ascender_ - descender_ - external_leading_`. -/
def FontMetrics.total (m : FontMetrics) : ℤ :=
  m.internal_leading + m.ascender - m.descender - m.external_leading

/-- One call to a `FontMetrics` setter. -/
inductive MetricsOp where
  | setBaseLine (v : ℤ)
  | setInternalLeading (v : ℤ)
  | setAscender (v : ℤ)
  | setDescender (v : ℤ)
  | setExternalLeading (v : ℤ)
deriving DecidableEq

/-- Execute one setter call; `none` models a failed assertion. -/
def applyMetricsOp (m : FontMetrics) : MetricsOp → Option FontMetrics
  | MetricsOp.setBaseLine v => some (m.set_base_line v)
  | MetricsOp.setInternalLeading v => m.set_internal_leading v
  | MetricsOp.setAscender v => m.set_ascender v
  | MetricsOp.setDescender v => m.set_descender v
  | MetricsOp.setExternalLeading v => m.set_external_leading v

/-- Execute a sequence of setter calls, stopping at the first failed
assertion. -/
def applyMetricsOps (m : FontMetrics) : List MetricsOp → Option FontMetrics
  | [] => some m
  | op :: ops =>
    match applyMetricsOp m op with
    | none => none
    | some m' => applyMetricsOps m' ops

/-- A growth-only setter call relative to the current state: it only
increases `internal_leading`/`ascender` or only decreases (makes more
negative) `descender`/`external_leading`; `base_line` updates do not touch
any metric entering `total()`. -/
def growthStep (m : FontMetrics) : MetricsOp → Bool
  | MetricsOp.setBaseLine _ => true
  | MetricsOp.setInternalLeading v => m.internal_leading ≤ v
  | MetricsOp.setAscender v => m.ascender ≤ v
  | MetricsOp.setDescender v => v ≤ m.descender
  | MetricsOp.setExternalLeading v => v ≤ m.external_leading

/-- A sequence of setter calls that is growth-only at every step. -/
def growthSeq (m : FontMetrics) : List MetricsOp → Bool
  | [] => true
  | op :: ops =>
    growthStep m op &&
      (match applyMetricsOp m op with
       | none => false
       | some m' => growthSeq m' ops)

/-- A `mathfu::vec2i` value. -/
structure Vec2i where
  x : ℤ
  y : ℤ
deriving DecidableEq

/-- Constant `kCaretPositionInvalid = mathfu::vec2i(-1, -1)`. -/
def kCaretPositionInvalid : Vec2i :=
  ⟨-1, -1⟩

/-- A `flatui::FontVertex`: packed position and UV coordinates, modelled
as exact rationals (only their count matters to the claims below). -/
structure FontVertex where
  px : ℚ
  py : ℚ
  pz : ℚ
  u : ℚ
  v : ℚ
deriving DecidableEq

/-- Constant `FontBuffer::kIndiciesPerCodePoint = 6`. -/
def FontBuffer.kIndiciesPerCodePoint : ℕ := 6

/-- Constant `FontBuffer::kVerticesPerCodePoint = 4`. -/
def FontBuffer.kVerticesPerCodePoint : ℕ := 4

/-- Fields of `flatui::FontBuffer`.  `caret_capacity` models
`caret_positions_.capacity()`, which `HasCaretPositions()` and
`GetCaretPosition()` inspect; a freshly constructed `std::vector` has
capacity 0. -/
structure FontBuffer where
  metrics : FontMetrics
  indices : List ℕ
  vertices : List FontVertex
  code_points : List ℕ
  caret_positions : List Vec2i
  caret_capacity : ℕ
  word_boundary : List ℕ
  word_boundary_caret : List ℕ
  size : Vec2i
  revision : ℕ
  pass : ℤ
  line_start_index : ℕ
  line_start_caret_index : ℕ
deriving DecidableEq

/-- The default `FontBuffer` constructor: empty vectors,
`revision_ = 0`, `line_start_index_ = 0`, `line_start_caret_index_ = 0`
(the remaining scalar members, left indeterminate by the C++ constructor,
are irrelevant to the claims and taken as zero). -/
def FontBuffer.mkDefault : FontBuffer :=
  { metrics := FontMetrics.mkDefault
    indices := []
    vertices := []
    code_points := []
    caret_positions := []
    caret_capacity := 0
    word_boundary := []
    word_boundary_caret := []
    size := ⟨0, 0⟩
    revision := 0
    pass := 0
    line_start_index := 0
    line_start_caret_index := 0 }

/-- The sizing `FontBuffer(uint32_t size, bool caret_info)` constructor:
it reserves `size + 1` caret slots (in `uint32_t` arithmetic) when
`caret_info` is set, so `caret_positions_.capacity()` becomes
`(size + 1) mod 2^32`; the other reserves do not change any observable
field of this model. -/
def FontBuffer.mkSized (size : ℕ) (caret_info : Bool) : FontBuffer :=
  { FontBuffer.mkDefault with
      caret_capacity :=
        if caret_info then (size % 4294967296 + 1) % 4294967296 else 0 }

/-- Modelled from the spec: the body of `FontBuffer::AddCaretPosition`
lives in `font_manager.cpp`, which is not part of the sources; per the
spec's data model the buffer owns "optional caret positions" that the
layout engine appends to, i.e. a `std::vector::push_back`, which grows the
capacity at least to the new element count. -/
def FontBuffer.AddCaretPosition (b : FontBuffer) (p : Vec2i) : FontBuffer :=
  { b with
      caret_positions := b.caret_positions ++ [p]
      caret_capacity := max b.caret_capacity (b.caret_positions.length + 1) }

/-- Method `FontBuffer::GetCaretPosition(index)`: returns
`kCaretPositionInvalid` when the caret vector has capacity 0 or
`index > caret_positions_.size()`; otherwise it reads
`caret_positions_[index]`.  The read is modelled by `List.get?`, so the
out-of-bounds access at `index = caret_positions_.size()` (which the
`>` guard does not reject) yields `none`, the undefined read. -/
def FontBuffer.GetCaretPosition (b : FontBuffer) (index : ℕ) : Option Vec2i :=
  if b.caret_capacity = 0 ∨ index > b.caret_positions.length then
    some kCaretPositionInvalid
  else b.caret_positions.get? index

/-- Method `FontBuffer::HasCaretPositions()`:
`caret_positions_.capacity() != 0`. -/
def FontBuffer.HasCaretPositions (b : FontBuffer) : Bool :=
  b.caret_capacity != 0

/-- Method `FontBuffer::Verify()`: asserts
`vertices_.size() == code_points_.size() * kVerticesPerCodePoint` and
`indices_.size() == code_points_.size() * kIndiciesPerCodePoint`, then
returns `true`.  A failed assertion is `none`; the buffer is never
modified. -/
def FontBuffer.Verify (b : FontBuffer) : Option Bool :=
  if b.vertices.length = b.code_points.length * FontBuffer.kVerticesPerCodePoint ∧
      b.indices.length = b.code_points.length * FontBuffer.kIndiciesPerCodePoint then
    some true
  else none

/-- Modelled from the spec: one completed `FontBuffer` mutation.  The
mutation bodies (`AddVertices`, `UpdateLine`, and the glyph-emission loop
of `FontManager::CreateBuffer` that pairs them with `AddCodepoint`) live
in `font_manager.cpp`, which is not part of the sources.  Per the spec the
buffer owns parallel sequences with "indices (6 per glyph, two triangles),
vertices (4 per glyph), code points (1 per glyph)", caret positions and
word-boundary markers, and line completion (justification) only moves
existing vertices. -/
inductive BufOp where
  | addGlyph (cp : ℕ) (v1 v2 v3 v4 : FontVertex) (i1 i2 i3 i4 i5 i6 : ℕ)
  | addCaret (p : Vec2i)
  | addWordBoundary (w wc : ℕ)
  | updateLineShift (dx : ℚ)
  | setMetrics (m : FontMetrics)
  | setSize (s : Vec2i)
  | setRevision (r : ℕ)
  | setPass (p : ℤ)

/-- Modelled from the spec: execute one completed `FontBuffer` mutation
(see `BufOp`). -/
def applyBufOp (b : FontBuffer) : BufOp → FontBuffer
  | BufOp.addGlyph cp v1 v2 v3 v4 i1 i2 i3 i4 i5 i6 =>
    { b with
        code_points := b.code_points ++ [cp]
        vertices := b.vertices ++ [v1, v2, v3, v4]
        indices := b.indices ++ [i1, i2, i3, i4, i5, i6] }
  | BufOp.addCaret p => b.AddCaretPosition p
  | BufOp.addWordBoundary w wc =>
    { b with
        word_boundary := b.word_boundary ++ [w]
        word_boundary_caret := b.word_boundary_caret ++ [wc] }
  | BufOp.updateLineShift dx =>
    { b with vertices := b.vertices.map (fun v => { v with px := v.px + dx }) }
  | BufOp.setMetrics m => { b with metrics := m }
  | BufOp.setSize s => { b with size := s }
  | BufOp.setRevision r => { b with revision := r }
  | BufOp.setPass p => { b with pass := p }

/-- Execute a sequence of completed `FontBuffer` mutations. -/
def applyBufOps (b : FontBuffer) (ops : List BufOp) : FontBuffer :=
  ops.foldl applyBufOp b

/-- Modelled from the spec: the Glyph Cache state
(`flatui/internal/glyph_cache.h` is not part of the sources).  Per spec
section 4.1 it is a fixed-capacity atlas mapping code points to regions,
with LRU eviction and a global revision counter bumped on each eviction.
`entries` keeps resident code points in least-recently-used-first order;
`glyphSize` gives the atlas area each code point's glyph occupies (from
the rasterizer). -/
structure GlyphCacheModel where
  capacity : ℕ
  glyphSize : ℕ → ℕ
  entries : List ℕ
  revision : ℕ

/-- Total atlas area occupied by the resident entries. -/
def GlyphCacheModel.used (c : GlyphCacheModel) : ℕ :=
  (c.entries.map c.glyphSize).sum

/-- Modelled from the spec: the eviction loop of
`lookup_or_create` (spec section 4.1).  Starting from the
least-recently-used end, entries are evicted until `need` fits in
`capacity`; eviction fails (a hard miss) when the entry is too large for
the atlas even when empty or when the next entry to evict is required by
the current in-progress operation (`pinned`).  Returns the surviving
entries and the number of evictions performed. -/
def evictLoop (gs : ℕ → ℕ) (capacity need : ℕ) (pinned : List ℕ) :
    List ℕ → Option (List ℕ × ℕ)
  | [] => if need ≤ capacity then some ([], 0) else none
  | e :: rest =>
    if ((e :: rest).map gs).sum + need ≤ capacity then some (e :: rest, 0)
    else if e ∈ pinned then none
    else
      match evictLoop gs capacity need pinned rest with
      | none => none
      | some (kept, n) => some (kept, n + 1)

/-- Modelled from the spec: `lookup_or_create(code_point, ...)` of the
Glyph Cache (spec section 4.1).  A hit marks the entry most recently
used; a miss places the glyph, evicting least-recently-used entries if
needed, each eviction bumping the global revision; `none` is the hard
miss ("never a partially-filled entry"). -/
def GlyphCacheModel.lookupOrCreate (c : GlyphCacheModel) (pinned : List ℕ)
    (cp : ℕ) : Option GlyphCacheModel :=
  if cp ∈ c.entries then
    some { c with entries := c.entries.erase cp ++ [cp] }
  else
    match evictLoop c.glyphSize c.capacity (c.glyphSize cp) pinned c.entries with
    | none => none
    | some (kept, n) =>
      some { c with entries := kept ++ [cp], revision := c.revision + n }

/-- Result of a successful `FontManager::GetBuffer` in this model: the
emitted glyph run (one code point per requested glyph) and the revision
stamped on the buffer. -/
structure FontBufferRun where
  code_points : List ℕ
  revision : ℕ
deriving DecidableEq

/-- Modelled from the spec: the glyph-placement loop of
`FontManager::CreateBuffer` (its body is in `font_manager.cpp`, not part
of the sources).  Per spec sections 4.1/4.4, every glyph of the string is
looked up (creating cache entries on miss); glyphs already placed for the
current string are required by the in-progress operation and hence
pinned; any hard miss aborts the whole buffer with `none` — no partial
result is kept. -/
def createBufferLoop (c : GlyphCacheModel) (placed : List ℕ) :
    List ℕ → Option (List ℕ × GlyphCacheModel)
  | [] => some (placed, c)
  | cp :: rest =>
    match c.lookupOrCreate placed cp with
    | none => none
    | some c' => createBufferLoop c' (placed ++ [cp]) rest

/-- Modelled from the spec: `FontManager::GetBuffer` on a buffer-cache
miss (spec section 4.4): lay out every glyph of `text` through the glyph
cache and return either a complete buffer stamped with the cache's
revision, or `none` (the `nullptr` miss signal) — never a partial or
truncated buffer. -/
def FontManager.GetBufferModel (c : GlyphCacheModel) (text : List ℕ) :
    Option (FontBufferRun × GlyphCacheModel) :=
  match createBufferLoop c [] text with
  | none => none
  | some (run, c') => some (⟨run, c'.revision⟩, c')

/-- Method `FontManager::FlushAndUpdate()` via `UpdatePass(true)`,
modelled from the spec (the body of `UpdatePass` is in
`font_manager.cpp`): spec section 4.5 — the flush-and-retry operation
"clears the Glyph Cache, bumps its revision, and restarts layout". -/
def FontManager.FlushAndUpdate (c : GlyphCacheModel) : GlyphCacheModel :=
  { c with entries := [], revision := c.revision + 1 }

set_option maxRecDepth 8000

/-- The `size_` x component stored by the `FontBufferParameters`
constructor. -/
theorem mk_size_x (fid tid fs : ℕ) (sx sy : ℤ) (al gf : ℕ) (ci : Bool)
    (g : ℕ) :
    (mkFontBufferParameters fid tid fs sx sy al gf ci g).size_x = sx :=
  rfl

/-- The `size_` y component stored by the `FontBufferParameters`
constructor. -/
theorem mk_size_y (fid tid fs : ℕ) (sx sy : ℤ) (al gf : ℕ) (ci : Bool)
    (g : ℕ) :
    (mkFontBufferParameters fid tid fs sx sy al gf ci g).size_y = sy :=
  rfl

/-- The `font_size_` bit pattern stored by the `FontBufferParameters`
constructor. -/
theorem mk_font_size (fid tid fs : ℕ) (sx sy : ℤ) (al gf : ℕ) (ci : Bool)
    (g : ℕ) :
    (mkFontBufferParameters fid tid fs sx sy al gf ci g).font_size =
      fs % 4294967296 :=
  rfl

/-- Reading the `text_alignement` bit field back from a constructed
`FontBufferParameters` recovers the alignment (reduced to its 3-bit
field), independently of the indeterminate padding bits. -/
theorem mk_get_text_alignment (fid tid fs : ℕ) (sx sy : ℤ) (al gf : ℕ)
    (ci : Bool) (g : ℕ) :
    (mkFontBufferParameters fid tid fs sx sy al gf ci g).get_text_alignment =
      al % 8 := by
  unfold mkFontBufferParameters FontBufferParameters.get_text_alignment
  cases ci <;> simp <;> omega

/-- Claim C1 (evaluation at the failing input).  The claim — equal
`(font_id, text_id, font_size, size, alignment, flags, caret)` tuples
always produce equal `operator()` hash values and `operator==` equality —
fails on the code as written: the constructor never initializes the 26
padding bits of the `flags_value_` union view, and both `operator==` and
`operator()` read the full `uint32_t`.  Two objects built from the
identical tuple but with different indeterminate padding (here `0` and
`64`) compare unequal and hash differently (hash functions instantiated
with concrete stand-ins for the implementation-defined `std::hash`). -/
theorem c1_uninitialized_flags_value :
    FontBufferParameters.opEq
        (mkFontBufferParameters 1 2 1107296256 16 16 0 0 false 0)
        (mkFontBufferParameters 1 2 1107296256 16 16 0 0 false 64) = false
  ∧ FontBufferParameters.opHash (fun n => n) Int.natAbs
        (mkFontBufferParameters 1 2 1107296256 16 16 0 0 false 0)
        (mkFontBufferParameters 1 2 1107296256 16 16 0 0 false 0) ≠
      FontBufferParameters.opHash (fun n => n) Int.natAbs
        (mkFontBufferParameters 1 2 1107296256 16 16 0 0 false 0)
        (mkFontBufferParameters 1 2 1107296256 16 16 0 0 false 64) := by
  decide

/-- Claim C2 (counterexample).  `+0.0` (bit pattern `0x00000000`) and
`-0.0` (bit pattern `0x80000000`) differ bit-for-bit in `font_size_`,
yet `operator==` reports the two parameter sets equal: the comparison is
IEEE `float` equality, not a raw-bit comparison. -/
theorem c2_pm_zero_counterexample :
    FontBufferParameters.opEq ⟨1, 2, 0, 16, 16, 0⟩
        ⟨1, 2, 2147483648, 16, 16, 0⟩ = true
  ∧ (⟨1, 2, 0, 16, 16, 0⟩ : FontBufferParameters).font_size ≠
      (⟨1, 2, 2147483648, 16, 16, 0⟩ : FontBufferParameters).font_size := by
  decide

/-- The C++ `float` comparison `feq` holds exactly when neither operand is
a NaN and both decode to the same value. -/
theorem feq_iff_decode (a b : ℕ) :
    feq a b = true ↔
      fdecode a ≠ FVal.nan ∧ fdecode b ≠ FVal.nan ∧ fdecode a = fdecode b := by
  unfold feq
  rcases fdecode a <;> rcases fdecode b <;> simp

/-- Claim C2 (amended).  `FontBufferParameters::operator==` returns true
iff `font_id_`, `text_id_`, `size_.x()`, `size_.y()` and `flags_value_`
match exactly and the `font_size_` floats compare equal under IEEE
`float` equality: neither is NaN and they denote the same value (so
bitwise-identical non-NaN patterns compare equal, `+0.0` equals `-0.0`
despite different bits, and NaN never compares equal, not by numeric
tolerance). -/
theorem c2_operator_eq_iff (p q : FontBufferParameters) :
    FontBufferParameters.opEq p q = true ↔
      (p.font_id = q.font_id ∧ p.text_id = q.text_id ∧
       p.size_x = q.size_x ∧ p.size_y = q.size_y ∧
       p.flags_value = q.flags_value ∧
       fdecode p.font_size ≠ FVal.nan ∧ fdecode q.font_size ≠ FVal.nan ∧
       fdecode p.font_size = fdecode q.font_size) := by
  unfold FontBufferParameters.opEq
  simp only [Bool.and_eq_true, beq_iff_eq, feq_iff_decode]
  tauto

/-- Witness for C2's amended theorem at a concrete input. -/
theorem c2_operator_eq_iff_witness :
    FontBufferParameters.opEq ⟨1, 2, 1107296256, 16, 16, 9⟩
        ⟨1, 2, 1107296256, 16, 16, 9⟩ = true :=
  (c2_operator_eq_iff ⟨1, 2, 1107296256, 16, 16, 9⟩
    ⟨1, 2, 1107296256, 16, 16, 9⟩).mpr (by decide)

/-- Claim C5.  For parameters built from any valid tuple,
`get_line_length()` returns `0` when the alignment is left or center, and
`size_.x() * kFreeTypeUnit` (in `int32_t` arithmetic) when the alignment
is right or any justify variant; for widths up to `2^24` pixels the
product involves no wrap-around, so it is literally `size.x() * 64`. -/
theorem c5_line_length (fid tid fs : ℕ) (sx sy : ℤ) (al gf : ℕ) (ci : Bool)
    (g : ℕ) (hal : validAlignment al) :
    ((mkFontBufferParameters fid tid fs sx sy al gf ci g).get_line_length =
      if al = kTextAlignmentRight ∨ al = kTextAlignmentJustify ∨
          al = kTextAlignmentRightJustify ∨ al = kTextAlignmentCenterJustify
      then wrap32 (sx * kFreeTypeUnit) else 0)
  ∧ (sx.natAbs ≤ 2 ^ 24 → wrap32 (sx * kFreeTypeUnit) = sx * 64) := by
  constructor
  · unfold FontBufferParameters.get_line_length
    rw [mk_get_text_alignment, mk_size_x]
    rcases hal with h | h | h | h | h | h <;> subst h <;>
      simp [kTextAlignmentLeft, kTextAlignmentRight, kTextAlignmentCenter,
        kTextAlignmentJustify, kTextAlignmentRightJustify,
        kTextAlignmentCenterJustify]
  · intro h
    unfold wrap32 kFreeTypeUnit
    omega

/-- Witness for C5 at a concrete input: right-aligned text of width 16
pixels gets the fixed line length `16 * 64 = 1024` FreeType units. -/
theorem c5_line_length_witness :
    (mkFontBufferParameters 1 2 1107296256 16 16 1 0 false 0).get_line_length =
      1024 := by
  have h := (c5_line_length 1 2 1107296256 16 16 1 0 false 0 (by decide)).1
  rw [h]
  decide

/-- Claim C6.  For parameters built from any valid tuple,
`get_multi_line_setting()` returns `false` when the requested width is 0;
otherwise `true` when the alignment is not left; otherwise it returns
whether the requested height is 0 or exceeds the font size under the
C++ `int32_t`-versus-`float` comparison `size_.y() > font_size_`. -/
theorem c6_multi_line_setting (fid tid fs : ℕ) (sx sy : ℤ) (al gf : ℕ)
    (ci : Bool) (g : ℕ) (hal : validAlignment al) :
    (mkFontBufferParameters fid tid fs sx sy al gf ci g).get_multi_line_setting =
      if sx = 0 then false
      else if al ≠ kTextAlignmentLeft then true
      else (sy == 0 || fgtIntFloat sy (fs % 4294967296)) := by
  unfold FontBufferParameters.get_multi_line_setting
  rw [mk_get_text_alignment, mk_size_x, mk_size_y, mk_font_size]
  rcases hal with h | h | h | h | h | h <;> subst h <;>
    simp [kTextAlignmentLeft, kTextAlignmentRight, kTextAlignmentCenter,
      kTextAlignmentJustify, kTextAlignmentRightJustify,
      kTextAlignmentCenterJustify]

/-- Witness for C6 at a concrete input: left alignment, width 2, height
64, font size `32.0f` — the height exceeds the font size, so the buffer
is multi-line. -/
theorem c6_multi_line_setting_witness :
    (mkFontBufferParameters 1 2 1107296256 2 64 0 0 false 0).get_multi_line_setting =
      true := by
  have h := c6_multi_line_setting 1 2 1107296256 2 64 0 0 false 0 (by decide)
  rw [h]
  decide

/-- One successful setter call preserves the `FontMetrics` sign
constraints. -/
theorem applyMetricsOp_signOk (m m' : FontMetrics) (op : MetricsOp)
    (hm : m.signOk) (h : applyMetricsOp m op = some m') : m'.signOk := by
  obtain ⟨h1, h2, h3, h4⟩ := hm
  cases op <;>
    simp only [applyMetricsOp, FontMetrics.set_base_line,
      FontMetrics.set_internal_leading, FontMetrics.set_ascender,
      FontMetrics.set_descender, FontMetrics.set_external_leading,
      Option.some.injEq] at h <;>
    [skip; split at h; split at h; split at h; split at h] <;>
    first
    | (cases h; exact ⟨by assumption, by assumption, by assumption,
        by assumption⟩)
    | exact absurd h (by simp)

/-- A successful sequence of setter calls preserves the sign
constraints. -/
theorem applyMetricsOps_signOk (ops : List MetricsOp) (m m' : FontMetrics)
    (hm : m.signOk) (h : applyMetricsOps m ops = some m') : m'.signOk := by
  induction ops generalizing m with
  | nil =>
    simp only [applyMetricsOps, Option.some.injEq] at h
    exact h ▸ hm
  | cons op ops ih =>
    simp only [applyMetricsOps] at h
    cases hop : applyMetricsOp m op with
    | none => rw [hop] at h; cases h
    | some m1 =>
      rw [hop] at h
      exact ih m1 (applyMetricsOp_signOk m m1 op hm hop) h

/-- The initializing `FontMetrics` constructor only ever returns
sign-correct states (its asserts reject the rest). -/
theorem mkChecked_signOk (bl il a d e : ℤ) (m : FontMetrics)
    (h : FontMetrics.mkChecked bl il a d e = some m) : m.signOk := by
  unfold FontMetrics.mkChecked at h
  split at h
  · cases h
    exact ⟨by simpa using (by assumption : (0:ℤ) ≤ il ∧ 0 ≤ a ∧ d ≤ 0 ∧ e ≤ 0).1,
      by simpa using (by assumption : (0:ℤ) ≤ il ∧ 0 ≤ a ∧ d ≤ 0 ∧ e ≤ 0).2.1,
      by simpa using (by assumption : (0:ℤ) ≤ il ∧ 0 ≤ a ∧ d ≤ 0 ∧ e ≤ 0).2.2.1,
      by simpa using (by assumption : (0:ℤ) ≤ il ∧ 0 ≤ a ∧ d ≤ 0 ∧ e ≤ 0).2.2.2⟩
  · cases h

/-- Claim C7.  Every reachable `FontMetrics` state — obtained from the
default constructor or a successful checked constructor call, followed by
any sequence of successful setter calls — satisfies the sign constraints
`internal_leading >= 0`, `ascender >= 0`, `descender <= 0`,
`external_leading <= 0`; an operation that would violate a constraint is
a failed assertion (`none`), so it produces no state at all. -/
theorem c7_metrics_sign_invariant (ops : List MetricsOp) (m0 m : FontMetrics)
    (h0 : m0 = FontMetrics.mkDefault ∨
      ∃ bl il a d e, FontMetrics.mkChecked bl il a d e = some m0)
    (h : applyMetricsOps m0 ops = some m) : m.signOk := by
  rcases h0 with h0 | ⟨bl, il, a, d, e, h0⟩
  · exact applyMetricsOps_signOk ops m0 m (by subst h0; decide) h
  · exact applyMetricsOps_signOk ops m0 m (mkChecked_signOk bl il a d e m0 h0) h

/-- Witness for C7 at a concrete input: starting from the default
constructor, setting the ascender to 5 yields a sign-correct state. -/
theorem c7_metrics_sign_invariant_witness :
    FontMetrics.signOk ⟨0, 0, 5, 0, 0⟩ :=
  c7_metrics_sign_invariant [MetricsOp.setAscender 5] FontMetrics.mkDefault
    ⟨0, 0, 5, 0, 0⟩ (Or.inl rfl) (by decide)

/-- Claim C8 (counterexample).  A single growth-only update — raising the
ascender magnitude from 0 to 1 — changes `total()` from 0 to 1, so
`total()` is not invariant under growth-only update sequences. -/
theorem c8_growth_changes_total :
    growthSeq ⟨0, 0, 0, 0, 0⟩ [MetricsOp.setAscender 1] = true
  ∧ applyMetricsOps ⟨0, 0, 0, 0, 0⟩ [MetricsOp.setAscender 1] =
      some ⟨0, 0, 1, 0, 0⟩
  ∧ FontMetrics.total ⟨0, 0, 1, 0, 0⟩ ≠ FontMetrics.total ⟨0, 0, 0, 0, 0⟩ := by
  decide

/-- One growth-only setter call never decreases `total()`. -/
theorem growthStep_total_le (m m' : FontMetrics) (op : MetricsOp)
    (hg : growthStep m op = true) (h : applyMetricsOp m op = some m') :
    m.total ≤ m'.total := by
  cases op <;>
    simp only [applyMetricsOp, growthStep, decide_eq_true_eq,
      FontMetrics.set_base_line, FontMetrics.set_internal_leading,
      FontMetrics.set_ascender, FontMetrics.set_descender,
      FontMetrics.set_external_leading, Option.some.injEq] at hg h <;>
    [skip; split at h; split at h; split at h; split at h] <;>
    first
    | (cases h; unfold FontMetrics.total; dsimp only; omega)
    | exact absurd h (by simp)

/-- Claim C8 (amended).  `total()` is monotonically non-decreasing — not
invariant — under any sequence of growth-only metric updates (updates
that only increase `internal_leading`/`ascender` or only decrease, i.e.
make more negative, `descender`/`external_leading`). -/
theorem c8_total_monotone (ops : List MetricsOp) (m m' : FontMetrics)
    (hg : growthSeq m ops = true) (h : applyMetricsOps m ops = some m') :
    m.total ≤ m'.total := by
  induction ops generalizing m with
  | nil =>
    simp only [applyMetricsOps, Option.some.injEq] at h
    exact h ▸ le_refl _
  | cons op ops ih =>
    simp only [applyMetricsOps] at h
    simp only [growthSeq, Bool.and_eq_true] at hg
    cases hop : applyMetricsOp m op with
    | none => rw [hop] at h; cases h
    | some m1 =>
      rw [hop] at h
      rw [hop] at hg
      exact le_trans (growthStep_total_le m m1 op hg.1 hop) (ih m1 hg.2 h)

/-- Witness for C8's amended theorem at a concrete input. -/
theorem c8_total_monotone_witness :
    FontMetrics.total ⟨0, 0, 0, 0, 0⟩ ≤ FontMetrics.total ⟨0, 0, 1, 0, 0⟩ :=
  c8_total_monotone [MetricsOp.setAscender 1] ⟨0, 0, 0, 0, 0⟩ ⟨0, 0, 1, 0, 0⟩
    (by decide) (by decide)

/-- The two array-length equations checked by `FontBuffer::Verify`. -/
def FontBuffer.sizesOk (b : FontBuffer) : Prop :=
  b.vertices.length = b.code_points.length * FontBuffer.kVerticesPerCodePoint ∧
    b.indices.length = b.code_points.length * FontBuffer.kIndiciesPerCodePoint

/-- `Verify` succeeds (returns `true` rather than asserting) exactly when
the array-length invariant holds; it never modifies the buffer. -/
theorem Verify_eq_some_iff (b : FontBuffer) :
    b.Verify = some true ↔ b.sizesOk := by
  unfold FontBuffer.Verify FontBuffer.sizesOk
  split
  · simp only [true_iff]
    assumption
  · simp only [reduceCtorEq, false_iff]
    assumption

/-- Every completed mutation preserves the array-length invariant. -/
theorem applyBufOp_sizesOk (b : FontBuffer) (op : BufOp) (h : b.sizesOk) :
    (applyBufOp b op).sizesOk := by
  obtain ⟨h1, h2⟩ := h
  cases op <;>
    (simp_all [applyBufOp, FontBuffer.sizesOk, FontBuffer.AddCaretPosition,
      FontBuffer.kVerticesPerCodePoint, FontBuffer.kIndiciesPerCodePoint];
     try omega)

/-- Any sequence of completed mutations preserves the array-length
invariant. -/
theorem applyBufOps_sizesOk (ops : List BufOp) (b : FontBuffer)
    (h : b.sizesOk) : (applyBufOps b ops).sizesOk := by
  induction ops generalizing b with
  | nil => exact h
  | cons op ops ih => exact ih (applyBufOp b op) (applyBufOp_sizesOk b op h)

/-- Claim C3.  Starting from either `FontBuffer` constructor, after any
sequence of completed mutations the invariant
`vertices.length = 4 * code_points.length` and
`indices.length = 6 * code_points.length` holds, so `Verify()` succeeds;
moreover `Verify` succeeds exactly when those equations hold (it checks —
asserting fatally on violation — and never repairs). -/
theorem c3_buffer_invariant (size : ℕ) (ci : Bool) (ops : List BufOp) :
    (applyBufOps (FontBuffer.mkSized size ci) ops).Verify = some true
  ∧ (applyBufOps FontBuffer.mkDefault ops).Verify = some true
  ∧ ∀ b : FontBuffer, b.Verify = some true ↔
      (b.vertices.length =
          b.code_points.length * FontBuffer.kVerticesPerCodePoint ∧
       b.indices.length =
          b.code_points.length * FontBuffer.kIndiciesPerCodePoint) := by
  refine ⟨?_, ?_, fun b => Verify_eq_some_iff b⟩
  · exact (Verify_eq_some_iff _).mpr
      (applyBufOps_sizesOk ops (FontBuffer.mkSized size ci) ⟨rfl, rfl⟩)
  · exact (Verify_eq_some_iff _).mpr
      (applyBufOps_sizesOk ops FontBuffer.mkDefault ⟨rfl, rfl⟩)

/-- Witness for C3 at a concrete input: a sized buffer after one glyph
emission (1 code point, 4 vertices, 6 indices) and one caret addition
passes `Verify`. -/
theorem c3_buffer_invariant_witness :
    (applyBufOps (FontBuffer.mkSized 2 true)
        [BufOp.addGlyph 65 ⟨0, 0, 0, 0, 0⟩ ⟨0, 1, 0, 0, 1⟩ ⟨1, 0, 0, 1, 0⟩
          ⟨1, 1, 0, 1, 1⟩ 0 1 2 2 1 3,
         BufOp.addCaret ⟨0, 0⟩]).Verify = some true :=
  (c3_buffer_invariant 2 true
    [BufOp.addGlyph 65 ⟨0, 0, 0, 0, 0⟩ ⟨0, 1, 0, 0, 1⟩ ⟨1, 0, 0, 1, 0⟩
      ⟨1, 1, 0, 1, 1⟩ 0 1 2 2 1 3,
     BufOp.addCaret ⟨0, 0⟩]).1

/-- A successful `createBufferLoop` emits exactly the glyphs already
placed followed by the whole remaining text — never a truncated run. -/
theorem createBufferLoop_complete (text : List ℕ) (c : GlyphCacheModel)
    (placed : List ℕ) (run : List ℕ) (c' : GlyphCacheModel)
    (h : createBufferLoop c placed text = some (run, c')) :
    run = placed ++ text := by
  induction text generalizing c placed with
  | nil =>
    simp only [createBufferLoop, Option.some.injEq, Prod.mk.injEq] at h
    simp [← h.1]
  | cons cp rest ih =>
    simp only [createBufferLoop] at h
    cases hl : c.lookupOrCreate placed cp with
    | none => rw [hl] at h; cases h
    | some c1 =>
      rw [hl] at h
      simpa using ih c1 (placed ++ [cp]) h

/-- When the pending glyph already fits without any eviction, the
eviction loop leaves the resident entries untouched. -/
theorem evictLoop_of_fits (gs : ℕ → ℕ) (capacity need : ℕ)
    (pinned : List ℕ) (entries : List ℕ)
    (h : (entries.map gs).sum + need ≤ capacity) :
    evictLoop gs capacity need pinned entries = some (entries, 0) := by
  cases entries with
  | nil =>
    simp only [List.map_nil, List.sum_nil, Nat.zero_add] at h
    simp [evictLoop, h]
  | cons e rest =>
    unfold evictLoop
    rw [if_pos h]

/-- If the resident entries plus the whole remaining text fit within the
cache capacity, the placement loop succeeds and emits the full text. -/
theorem createBufferLoop_success (text : List ℕ) (c : GlyphCacheModel)
    (placed : List ℕ)
    (h : c.used + (text.map c.glyphSize).sum ≤ c.capacity) :
    ∃ c', createBufferLoop c placed text = some (placed ++ text, c') := by
  induction text generalizing c placed with
  | nil => exact ⟨c, by simp [createBufferLoop]⟩
  | cons cp rest ih =>
    simp only [List.map_cons, List.sum_cons] at h
    by_cases hmem : cp ∈ c.entries
    · have hperm : (c.entries.erase cp ++ [cp]).Perm c.entries :=
        (List.perm_append_singleton cp _).trans
          (List.perm_cons_erase hmem).symm
      obtain ⟨c', hc'⟩ := ih { c with entries := c.entries.erase cp ++ [cp] }
        (placed ++ [cp])
        (by
          have hsum : (((c.entries.erase cp ++ [cp]).map c.glyphSize).sum) =
              ((c.entries.map c.glyphSize).sum) :=
            (hperm.map c.glyphSize).sum_eq
          simp only [GlyphCacheModel.used] at h ⊢
          simp only [hsum]
          omega)
      refine ⟨c', ?_⟩
      simp only [createBufferLoop, GlyphCacheModel.lookupOrCreate, if_pos hmem]
      simpa using hc'
    · have hfit : (c.entries.map c.glyphSize).sum + c.glyphSize cp ≤
          c.capacity := by
        simp only [GlyphCacheModel.used] at h
        omega
      obtain ⟨c', hc'⟩ := ih
        { c with entries := c.entries ++ [cp], revision := c.revision + 0 }
        (placed ++ [cp])
        (by
          simp only [GlyphCacheModel.used, List.map_append, List.sum_append,
            List.map_cons, List.sum_cons, List.map_nil, List.sum_nil]
          simp only [GlyphCacheModel.used] at h
          omega)
      refine ⟨c', ?_⟩
      simp only [createBufferLoop, GlyphCacheModel.lookupOrCreate,
        if_neg hmem, evictLoop_of_fits c.glyphSize c.capacity
          (c.glyphSize cp) placed c.entries hfit]
      simpa using hc'

/-- Claim C4.  `GetBuffer` either returns a complete buffer — one emitted
code point per requested glyph, stamped with the cache revision — or the
`nullptr` miss signal; it never returns a partial or truncated buffer.
Recovery is caller-driven: `FlushAndUpdate()` clears the whole glyph
cache and bumps its revision, after which a retry of the same `GetBuffer`
call succeeds whenever the string fits in an empty cache. -/
theorem c4_no_partial_buffer (c : GlyphCacheModel) (text : List ℕ) :
    (∀ run c', FontManager.GetBufferModel c text = some (run, c') →
        run.code_points = text ∧ run.revision = c'.revision)
  ∧ (FontManager.FlushAndUpdate c).entries = []
  ∧ (FontManager.FlushAndUpdate c).revision = c.revision + 1
  ∧ ((text.map c.glyphSize).sum ≤ c.capacity →
      ∃ run c', FontManager.GetBufferModel (FontManager.FlushAndUpdate c)
          text = some (run, c') ∧ run.code_points = text) := by
  refine ⟨?_, rfl, rfl, ?_⟩
  · intro run c' h
    unfold FontManager.GetBufferModel at h
    cases hl : createBufferLoop c [] text with
    | none => rw [hl] at h; cases h
    | some res =>
      rw [hl] at h
      simp only [Option.some.injEq, Prod.mk.injEq] at h
      obtain ⟨hrun, hc'⟩ := h
      have := createBufferLoop_complete text c [] res.1 res.2 (by
        simpa using hl)
      constructor
      · rw [← hrun]
        simpa using this
      · rw [← hrun, ← hc']
  · intro h
    obtain ⟨c', hc'⟩ := createBufferLoop_success text
      (FontManager.FlushAndUpdate c) []
      (by
        simp only [FontManager.FlushAndUpdate, GlyphCacheModel.used]
        simpa using h)
    exact ⟨⟨text, c'.revision⟩, c', by
      simp [FontManager.GetBufferModel, hc'], rfl⟩

/-- Witness for C4 at a concrete input: a two-glyph string placed through
a flushed three-slot cache returns the complete run. -/
theorem c4_no_partial_buffer_witness :
    ∃ run c', FontManager.GetBufferModel
        (FontManager.FlushAndUpdate ⟨3, fun _ => 1, [7], 5⟩) [65, 66] =
          some (run, c')
      ∧ run.code_points = [65, 66] :=
  (c4_no_partial_buffer ⟨3, fun _ => 1, [7], 5⟩ [65, 66]).2.2.2 (by decide)

/-- Claim C9 (evaluation at the failing input).  The claim — and the
method's own doc comment — require `GetCaretPosition(index)` to return
`kCaretPositionInvalid` whenever `index >= caret_positions_.size()`.  The
code guards with `index > caret_positions_.size()`, so at
`index = caret_positions_.size()` (here 2, on a buffer holding 2 caret
positions with reserved capacity 3) the guard passes and the method reads
`caret_positions_[size()]`, one element past the end: an undefined read
(`none` in this model), not the documented sentinel. -/
theorem c9_caret_read_past_end :
    (((FontBuffer.mkSized 2 true).AddCaretPosition ⟨0, 0⟩).AddCaretPosition
        ⟨5, 0⟩).GetCaretPosition 2 = none
  ∧ (((FontBuffer.mkSized 2 true).AddCaretPosition ⟨0, 0⟩).AddCaretPosition
        ⟨5, 0⟩).caret_positions.length = 2
  ∧ (((FontBuffer.mkSized 2 true).AddCaretPosition ⟨0, 0⟩).AddCaretPosition
        ⟨5, 0⟩).GetCaretPosition 1 = some ⟨5, 0⟩
  ∧ (((FontBuffer.mkSized 2 true).AddCaretPosition ⟨0, 0⟩).AddCaretPosition
        ⟨5, 0⟩).GetCaretPosition 3 = some kCaretPositionInvalid := by
  decide

/-- Claim C10 (counterexample).  For `size = 2^32 - 1` the constructor's
`uint32_t` expression `size + 1` wraps to 0, `reserve(0)` leaves the
fresh vector's capacity at 0, and `HasCaretPositions()` is false even
though the buffer was constructed with `caret_info = true`. -/
theorem c10_reserve_wraparound :
    (FontBuffer.mkSized 4294967295 true).HasCaretPositions = false := by
  decide

/-- Claim C10 (amended).  `HasCaretPositions()` returns true for every
`FontBuffer` constructed with `caret_info = true` and glyph count other
than `2^32 - 1` (where the `uint32_t` reserve size `size + 1` wraps to 0),
even before any caret position is added — the check is on the reserved
capacity, not the element count — and returns false for a
default-constructed `FontBuffer` until a caret position is added. -/
theorem c10_has_caret_positions (size : ℕ)
    (h : size % 4294967296 ≠ 4294967295) :
    (FontBuffer.mkSized size true).HasCaretPositions = true
  ∧ FontBuffer.mkDefault.HasCaretPositions = false
  ∧ ∀ p : Vec2i,
      (FontBuffer.mkDefault.AddCaretPosition p).HasCaretPositions = true := by
  refine ⟨?_, rfl, fun p => rfl⟩
  unfold FontBuffer.mkSized FontBuffer.HasCaretPositions
  simp only [if_pos]
  have : (size % 4294967296 + 1) % 4294967296 ≠ 0 := by omega
  simpa using this

/-- Witness for C10's amended theorem at a concrete input. -/
theorem c10_has_caret_positions_witness :
    (FontBuffer.mkSized 5 true).HasCaretPositions = true :=
  (c10_has_caret_positions 5 (by decide)).1
